import Mathlib

/-!
Shallow embedding of the MetaGPT web-dashboard frontend core:
the project state store (`stores/projects.js`), the notification queue
(`stores/notification.js`), the WebSocket event router
(`composables/useWebSocket.js`) and the LLM-call detail cursor
(`components/EmployeeGrid.vue`).  JavaScript objects become Lean
structures, in-place mutation becomes explicit state passing, and the
nondeterministic bits (Date.now, toISOString) are threaded through an
explicit environment.
-/

namespace MetaGPTFrontend

/-- JS `a || b` on an optional string: `undefined`/`null` and the empty
string are falsy, so both fall through to the default. -/
def jsOrStr : Option String → String → String
  | some s, d => if s = "" then d else s
  | none, d => d

/-- Employee of a project roster: `name`, `profile`, `is_idle`,
`current_action` (see spec §3 and `stores/projects.js`). -/
structure Employee where
  name : String
  profile : String
  is_idle : Bool
  current_action : String
  deriving Repr, DecidableEq

/-- Project entity.  `employees` is `Option` because the JS field may be
`undefined` until a roster event arrives. -/
structure Project where
  id : Nat
  status : String
  total_cost : ℚ
  employees : Option (List Employee)
  output_path : String
  deriving Repr, DecidableEq

/-- A chat message as stored (timestamp already defaulted). -/
structure Message where
  type : Option String
  content : String
  sent_from : String
  timestamp : String
  deriving Repr, DecidableEq

/-- Inbound message payload: timestamp may be absent (defaulted by
`addMessage`). -/
structure MsgIn where
  type : Option String
  content : String
  sent_from : String
  timestamp : Option String
  deriving Repr, DecidableEq

/-- A thinking-log entry as stored: synthetic local `id` plus defaulted
timestamp. -/
structure ThinkingLog where
  agent_name : String
  action : String
  content : String
  type : String
  id : ℚ
  timestamp : String
  deriving Repr, DecidableEq

/-- Inbound thinking payload (before `id`/timestamp synthesis). -/
structure ThinkIn where
  agent_name : String
  action : String
  content : String
  type : String
  timestamp : Option String
  deriving Repr, DecidableEq

/-- A pushed LLM-call summary record as stored. -/
structure LLMCall where
  agent_name : String
  model : String
  prompt : String
  response : String
  cost : ℚ
  tokens : Nat
  id : ℚ
  timestamp : String
  deriving Repr, DecidableEq

/-- A tool-usage record as stored.  `args` is the serialized argument
object (the store only ever stringifies it). -/
structure ToolUsage where
  agent_name : String
  tool_name : String
  args : String
  result : Option String
  id : ℚ
  timestamp : String
  deriving Repr, DecidableEq

/-- The nondeterministic ambient values a handler reads:
`Date.now() + Math.random()` (used as synthetic ids) and
`new Date().toISOString()` (used as default timestamps). -/
structure Env where
  nowId : ℚ
  nowIso : String
  deriving Repr, DecidableEq

/-- The Pinia project store state (`stores/projects.js`). -/
structure StoreState where
  projects : List Project
  currentProjectId : Option Nat
  currentProject : Option Project
  loading : Bool
  messages : List Message
  thinkingLogs : List ThinkingLog
  llmCalls : List LLMCall
  toolUsages : List ToolUsage
  deriving Repr, DecidableEq

/-- Update the first element satisfying `p` (JS `Array.find` returns a
reference that is then mutated in place). -/
def updateFirst (p : α → Bool) (f : α → α) : List α → List α
  | [] => []
  | x :: xs => if p x then f x :: xs else x :: updateFirst p f xs

/-- `addMessage(msg)`: append with timestamp defaulted via `||`. -/
def addMessage (env : Env) (msg : MsgIn) (s : StoreState) : StoreState :=
  { s with messages := s.messages ++
      [{ type := msg.type, content := msg.content, sent_from := msg.sent_from,
         timestamp := jsOrStr msg.timestamp env.nowIso }] }

/-- `addThinking(log)`: append with synthetic id and defaulted timestamp. -/
def addThinking (env : Env) (log : ThinkIn) (s : StoreState) : StoreState :=
  { s with thinkingLogs := s.thinkingLogs ++
      [{ agent_name := log.agent_name, action := log.action,
         content := log.content, type := log.type, id := env.nowId,
         timestamp := jsOrStr log.timestamp env.nowIso }] }

/-- Inbound LLM-call payload handed to `addLLMCall`. -/
structure LLMCallIn where
  agent_name : String
  model : String
  prompt : String
  response : String
  cost : ℚ
  tokens : Nat
  deriving Repr, DecidableEq

/-- `addLLMCall(call)`: append with synthetic id and timestamp. -/
def addLLMCall (env : Env) (call : LLMCallIn) (s : StoreState) : StoreState :=
  { s with llmCalls := s.llmCalls ++
      [{ agent_name := call.agent_name, model := call.model,
         prompt := call.prompt, response := call.response,
         cost := call.cost, tokens := call.tokens, id := env.nowId,
         timestamp := env.nowIso }] }

/-- Inbound tool-usage payload handed to `addToolUsage`. -/
structure ToolUsageIn where
  agent_name : String
  tool_name : String
  args : String
  result : Option String
  deriving Repr, DecidableEq

/-- `addToolUsage(usage)`: append a ToolUsage record, then synthesize one
thinking-log entry of type `tool` describing the call. -/
def addToolUsage (env : Env) (usage : ToolUsageIn) (s : StoreState) : StoreState :=
  let s1 : StoreState :=
    { s with toolUsages := s.toolUsages ++
        [{ agent_name := usage.agent_name, tool_name := usage.tool_name,
           args := usage.args, result := usage.result, id := env.nowId,
           timestamp := env.nowIso }] }
  addThinking env
    { agent_name := usage.agent_name
      action := "🔧 " ++ usage.tool_name
      content := "调用工具: " ++ usage.tool_name ++ "\n参数: " ++ usage.args ++
        "\n结果: " ++ jsOrStr usage.result "执行中..."
      type := "tool"
      timestamp := none } s1

/-- `updateEmployees(employees)`: full roster replace on the focused
project, no-op when none is focused. -/
def updateEmployees (employees : List Employee) (s : StoreState) : StoreState :=
  match s.currentProject with
  | some cp => { s with currentProject := some { cp with employees := some employees } }
  | none => s

/-- `updateStatus(status)`: set the focused project's status and the
status of the first summary-list entry whose id matches the focused id. -/
def updateStatus (status : String) (s : StoreState) : StoreState :=
  let s1 : StoreState :=
    match s.currentProject with
    | some cp => { s with currentProject := some { cp with status := status } }
    | none => s
  match s1.currentProjectId with
  | some cid =>
      { s1 with projects :=
          (updateFirst (fun p => p.id = cid)
            (fun p => { p with status := status }) s1.projects) }
  | none => s1

/-- `updateCost(cost)`: set the focused project's `total_cost` and that of
the first matching summary-list entry. -/
def updateCost (cost : ℚ) (s : StoreState) : StoreState :=
  let s1 : StoreState :=
    match s.currentProject with
    | some cp => { s with currentProject := some { cp with total_cost := cost } }
    | none => s
  match s1.currentProjectId with
  | some cid =>
      { s1 with projects :=
          (updateFirst (fun p => p.id = cid)
            (fun p => { p with total_cost := cost }) s1.projects) }
  | none => s1

/-- Inbound `agent_status` payload. -/
structure AgentStatusIn where
  agent_name : String
  status : String
  action : Option String
  deriving Repr, DecidableEq

/-- The in-place field update `updateEmployeeStatus` performs on the found
employee. -/
def applyAgentStatus (d : AgentStatusIn) (e : Employee) : Employee :=
  { e with is_idle := d.status = "idle", current_action := jsOrStr d.action "" }

/-- `updateEmployeeStatus(data)`: early-return when no focused project or
no roster; otherwise mutate the first employee whose name matches. -/
def updateEmployeeStatus (d : AgentStatusIn) (s : StoreState) : StoreState :=
  match s.currentProject with
  | none => s
  | some cp =>
    match cp.employees with
    | none => s
    | some l =>
      if l.any (fun e => e.name = d.agent_name) then
        { s with currentProject :=
            (some { cp with employees :=
              (some (updateFirst (fun e => e.name = d.agent_name)
                (applyAgentStatus d) l)) }) }
      else s

/-- `clearMessages()`: empty the four telemetry sequences. -/
def clearMessages (s : StoreState) : StoreState :=
  { s with messages := [], thinkingLogs := [], llmCalls := [], toolUsages := [] }

/-- `reset()`: clear telemetry and release the focus. -/
def reset (s : StoreState) : StoreState :=
  { clearMessages s with currentProject := none, currentProjectId := none }

/-! ### Event router (`useWebSocket.js`, `handleMessage`) -/

/-- Network side effects a handler fires without awaiting them. -/
inductive Effect where
  | fetchProjectsReq
  deriving Repr, DecidableEq

/-- Inbound stream frames, one constructor per `type` tag; `unknown`
stands for any other tag (ignored by the dispatch `default` arm).
Optional payload fields are `Option`, mirroring `!== undefined` tests. -/
inductive WSEvent where
  | connected (employees : Option (List Employee))
  | message (msg : MsgIn)
  | agent_status (d : AgentStatusIn)
  | thinking (log : ThinkIn)
  | llm_call (c : LLMCallIn) (total_cost : Option ℚ)
  | tool_usage (u : ToolUsageIn)
  | cost_update (total_cost : Option ℚ)
  | project_status (status : String) (message : String)
      (total_cost : Option ℚ) (output_path : Option String)
  | employees_updated (employees : List Employee)
  | unknown (tag : String)
  deriving Repr, DecidableEq

/-- `handleMessage(data)`: dispatch on the `type` tag, mutating the store
and possibly firing a (non-awaited) project-list refresh. -/
def handleMessage (env : Env) (ev : WSEvent) (s : StoreState) :
    StoreState × List Effect :=
  match ev with
  | .connected employees =>
      (match employees with
       | some l => (updateEmployees l s, [])
       | none => (s, []))
  | .message msg => (addMessage env msg s, [])
  | .agent_status d => (updateEmployeeStatus d s, [])
  | .thinking log => (addThinking env log s, [])
  | .llm_call c total_cost =>
      let s1 := addLLMCall env c s
      (match total_cost with
       | some tc => (updateCost tc s1, [])
       | none => (s1, []))
  | .tool_usage u => (addToolUsage env u s, [])
  | .cost_update total_cost =>
      (match total_cost with
       | some tc => (updateCost tc s, [])
       | none => (s, []))
  | .project_status status msg total_cost output_path =>
      let s1 := updateStatus status s
      let s2 := addMessage env
        { type := some "system", content := msg, sent_from := "System",
          timestamp := none } s1
      let s3 :=
        if status = "completed" then
          match total_cost with
          | some tc =>
              let s3 := updateCost tc s2
              (match s3.currentProject with
               | some cp => { s3 with currentProject :=
                   (some { cp with output_path := jsOrStr output_path "" }) }
               | none => s3)
          | none => s2
        else s2
      (s3, [.fetchProjectsReq])
  | .employees_updated employees => (updateEmployees employees s, [])
  | .unknown _ => (s, [])

/-! ### REST actions of the project store

Each `async` action is embedded as a pure function of the outcome of the
API calls it awaits (an `Except` whose error value carries the server's
`detail` text).  The result triple is the new store state, the
notifications raised during the call, and whether the action rethrows the
error to its caller. -/

/-- A notification raised through `useNotification()`. -/
inductive NotifCall where
  | error (msg : String)
  | success (msg : String)
  | warning (msg : String)
  deriving Repr, DecidableEq

/-- `fetchProjects()`: replace the list on success; on failure raise one
error notification and swallow the error (no rethrow). -/
def fetchProjects (res : Except String (List Project)) (s : StoreState) :
    StoreState × List NotifCall × Bool :=
  match res with
  | .ok ps => ({ s with projects := ps, loading := false }, [], false)
  | .error _ => ({ s with loading := false }, [.error "加载项目列表失败"], false)

/-- `fetchProject(id)`: focus the fetched project; on failure raise one
error notification and rethrow. -/
def fetchProject (id : Nat) (res : Except String Project) (s : StoreState) :
    StoreState × List NotifCall × Bool :=
  match res with
  | .ok p =>
      ({ s with
          currentProject := some p
          currentProjectId := some id
          loading := false }, [], false)
  | .error _ => ({ s with loading := false }, [.error "加载项目详情失败"], true)

/-- `createProject(data)`: on success refresh the list (itself fallible
but never throwing) and raise a success notice; on failure raise one
error notification and rethrow. -/
def createProject (res : Except String Project)
    (listRes : Except String (List Project)) (s : StoreState) :
    StoreState × List NotifCall × Bool :=
  match res with
  | .ok _ =>
      let r := fetchProjects listRes s
      (r.1, r.2.1 ++ [.success "项目创建成功！"], false)
  | .error _ => (s, [.error "创建项目失败"], true)

/-- `updateProject(id, data)`: on success re-fetch the focused project if
it is the one updated (a rethrow from that nested fetch is caught and
reported as an update failure); on failure raise one error notification
and rethrow. -/
def updateProject (id : Nat) (res : Except String Unit)
    (fetchRes : Except String Project) (s : StoreState) :
    StoreState × List NotifCall × Bool :=
  match res with
  | .ok _ =>
      if s.currentProjectId = some id then
        let r := fetchProject id fetchRes s
        if r.2.2 then (r.1, r.2.1 ++ [.error "更新项目失败"], true)
        else (r.1, r.2.1, false)
      else (s, [], false)
  | .error _ => (s, [.error "更新项目失败"], true)

/-- `deleteProject(id)`: on success drop the focus if it pointed at the
deleted project, refresh the list, raise a success notice; on failure
raise one error notification and rethrow. -/
def deleteProject (id : Nat) (res : Except String Unit)
    (listRes : Except String (List Project)) (s : StoreState) :
    StoreState × List NotifCall × Bool :=
  match res with
  | .ok _ =>
      let s1 := if s.currentProjectId = some id then
          { s with currentProject := none, currentProjectId := none }
        else s
      let r := fetchProjects listRes s1
      (r.1, r.2.1 ++ [.success "项目已删除"], false)
  | .error _ => (s, [.error "删除项目失败"], true)

/-- `startProject(id)`: success notice, or one error notification plus
rethrow. -/
def startProject (res : Except String Unit) (s : StoreState) :
    StoreState × List NotifCall × Bool :=
  match res with
  | .ok _ => (s, [.success "项目开始运行！"], false)
  | .error _ => (s, [.error "启动项目失败"], true)

/-- `stopProject(id)`: warning notice, or one error notification plus
rethrow. -/
def stopProject (res : Except String Unit) (s : StoreState) :
    StoreState × List NotifCall × Bool :=
  match res with
  | .ok _ => (s, [.warning "项目已停止"], false)
  | .error _ => (s, [.error "停止项目失败"], true)

/-- The store's initial state. -/
def initialStore : StoreState :=
  { projects := [], currentProjectId := none, currentProject := none,
    loading := false, messages := [], thinkingLogs := [], llmCalls := [],
    toolUsages := [] }

/-! ### Notification queue (`stores/notification.js`) -/

/-- A queued notification. -/
structure Notification where
  id : Nat
  message : String
  type : String
  timestamp : Nat
  deriving Repr, DecidableEq

/-- Notification store state: queue plus the module-local id counter. -/
structure NotifState where
  notifications : List Notification
  idCounter : Nat
  deriving Repr, DecidableEq

/-- A `setTimeout(() => remove(id), delayMs)` scheduled by `add`. -/
structure Timer where
  targetId : Nat
  delayMs : Int
  deriving Repr, DecidableEq

/-- `add(message, type = 'info', duration = 4000)`: bump the counter,
enqueue, and schedule automatic removal unless `duration ≤ 0`.  `now` is
`Date.now()`; the returned timer list holds the scheduled removal, if
any. -/
def notifAdd (now : Nat) (message type_ : String) (duration : Int)
    (s : NotifState) : NotifState × List Timer × Nat :=
  let id := s.idCounter + 1
  let s1 : NotifState :=
    { notifications := s.notifications ++
        [{ id := id, message := message, type := type_, timestamp := now }]
      idCounter := id }
  if 0 < duration then (s1, [{ targetId := id, delayMs := duration }], id)
  else (s1, [], id)

/-- JS default parameter: a missing `duration` argument falls back to
`add`'s own default of 4000. -/
def notifAddOpt (now : Nat) (message type_ : String) (duration : Option Int)
    (s : NotifState) : NotifState × List Timer × Nat :=
  notifAdd now message type_ (duration.getD 4000) s

/-- `remove(id)`: splice out the first notification with this id. -/
def notifRemove (id : Nat) (s : NotifState) : NotifState :=
  if s.notifications.any (fun n => n.id = id) then
    { s with notifications :=
        (s.notifications.eraseP (fun n => n.id = id)) }
  else s

/-- `success(message, duration)`. -/
def notifSuccess (now : Nat) (message : String) (duration : Option Int)
    (s : NotifState) : NotifState × List Timer × Nat :=
  notifAddOpt now message "success" duration s

/-- `error(message, duration = 6000)`: its own default is 6000ms. -/
def notifError (now : Nat) (message : String) (duration : Option Int)
    (s : NotifState) : NotifState × List Timer × Nat :=
  notifAdd now message "error" (duration.getD 6000) s

/-- `warning(message, duration)`. -/
def notifWarning (now : Nat) (message : String) (duration : Option Int)
    (s : NotifState) : NotifState × List Timer × Nat :=
  notifAddOpt now message "warning" duration s

/-- `info(message, duration)`. -/
def notifInfo (now : Nat) (message : String) (duration : Option Int)
    (s : NotifState) : NotifState × List Timer × Nat :=
  notifAddOpt now message "info" duration s

/-! ### Connection manager (`useWebSocket.js`, `connect`/`disconnect`)

The composable holds one `ws` ref.  To reason about how many transport
connections are actually open we track the set of live socket handles in
a small world alongside the client's ref. -/

/-- Live transport sockets (handles of WebSocket objects not yet closed)
plus a fresh-handle counter. -/
structure WSWorld where
  openConns : List Nat
  nextHandle : Nat
  deriving Repr, DecidableEq

/-- The composable's refs: `ws` (the held socket, if any) and
`isConnected`. -/
structure WSClient where
  ws : Option Nat
  isConnected : Bool
  deriving Repr, DecidableEq

/-- The stream endpoint URL built by `connect`. -/
def wsUrl (secure : Bool) (host : String) (projectId : String) : String :=
  (if secure then "wss:" else "ws:") ++ "//" ++ host ++ "/ws/" ++ projectId

/-- `disconnect()`: close and drop the held socket, if any, and mark
disconnected. -/
def wsDisconnect : WSWorld × WSClient → WSWorld × WSClient
  | (w, c) =>
    match c.ws with
    | some h => ({ w with openConns := w.openConns.filter (fun x => x ≠ h) },
                 { ws := none, isConnected := false })
    | none => (w, { c with isConnected := false })

/-- `connect(projectId)`: tear down any existing connection first, then
open exactly one new socket (held but not yet `onopen`ed). -/
def wsConnect (st : WSWorld × WSClient) : WSWorld × WSClient :=
  let st1 := wsDisconnect st
  let w := st1.1
  let h := w.nextHandle
  ({ openConns := w.openConns ++ [h], nextHandle := h + 1 },
   { ws := some h, isConnected := false })

/-- Operations a component can perform on the connection manager. -/
inductive WSOp where
  | connectOp (projectId : String)
  | disconnectOp
  deriving Repr, DecidableEq

/-- One operation step. -/
def wsStep : WSOp → WSWorld × WSClient → WSWorld × WSClient
  | .connectOp _, st => wsConnect st
  | .disconnectOp, st => wsDisconnect st

/-- Initial state: no socket ever opened. -/
def wsInit : WSWorld × WSClient :=
  ({ openConns := [], nextHandle := 0 }, { ws := none, isConnected := false })

/-- Run a sequence of connect/disconnect operations from the start
state. -/
def wsRun (ops : List WSOp) : WSWorld × WSClient :=
  ops.foldl (fun st op => wsStep op st) wsInit

/-! ### Detail cursor (`EmployeeGrid.vue`) -/

/-- The cursor refs of the LLM-call browser. -/
structure CursorState where
  currentIndex : Nat
  totalCount : Nat
  hasPrev : Bool
  hasNext : Bool
  loading : Bool
  deriving Repr, DecidableEq

/-- `String(n).padStart(4, '0')`. -/
def padStart4 (s : String) : String :=
  if 4 ≤ s.length then s
  else String.mk (List.replicate (4 - s.length) '0') ++ s

/-- The guard and URL of `fetchLLMCall`: no request without a project id
or call id; otherwise a GET under the project-scoped path. -/
def fetchLLMCallReq (projectId : Option String) (callId : String) :
    Option String :=
  match projectId with
  | none => none
  | some pid =>
      if pid = "" ∨ callId = "" then none
      else some ("/api/projects/" ++ pid ++ "/llm-calls/" ++ callId)

/-- The synchronous prefix of `fetchLLMCall(callId)`: guard, then set the
loading flag and issue the request. -/
def startFetch (projectId : Option String) (callId : String)
    (c : CursorState) : CursorState × Option String :=
  match fetchLLMCallReq projectId callId with
  | none => (c, none)
  | some url => ({ c with loading := true }, some url)

/-- `goToPrev()`: fetch ordinal `currentIndex - 1` unless `hasPrev` is
false or the index is already at 1. -/
def goToPrev (projectId : Option String) (c : CursorState) :
    CursorState × Option String :=
  if c.hasPrev ∧ 1 < c.currentIndex then
    startFetch projectId (padStart4 (toString (c.currentIndex - 1))) c
  else (c, none)

/-- `goToNext()`: fetch ordinal `currentIndex + 1` unless `hasNext` is
false or the index is already at `totalCount`. -/
def goToNext (projectId : Option String) (c : CursorState) :
    CursorState × Option String :=
  if c.hasNext ∧ c.currentIndex < c.totalCount then
    startFetch projectId (padStart4 (toString (c.currentIndex + 1))) c
  else (c, none)

/-- `goToLatest()`: fetch ordinal `totalCount` when nonempty. -/
def goToLatest (projectId : Option String) (c : CursorState) :
    CursorState × Option String :=
  if 0 < c.totalCount then
    startFetch projectId (padStart4 (toString c.totalCount)) c
  else (c, none)

/-! ### Concrete fixtures used by witnesses and counterexamples -/

/-- A fixed ambient environment. -/
def env1 : Env := { nowId := 42, nowIso := "2026-01-01T00:00:00Z" }

/-- One roster employee. -/
def emp1 : Employee :=
  { name := "Alice", profile := "Engineer", is_idle := true, current_action := "" }

/-- A focused project with a one-employee roster. -/
def proj1 : Project :=
  { id := 1, status := "running", total_cost := 0, employees := some [emp1],
    output_path := "" }

/-- A store state focused on `proj1`. -/
def store1 : StoreState :=
  { initialStore with
      projects := [proj1], currentProjectId := some 1,
      currentProject := some proj1 }

/-- A pushed LLM-call payload. -/
def call1 : LLMCallIn :=
  { agent_name := "Alice", model := "gpt-4", prompt := "p", response := "r",
    cost := 1/100, tokens := 10 }

/-! ### Helper lemmas -/

/-- `updateFirst` twice with the same predicate and an idempotent,
predicate-preserving update collapses to once. -/
theorem updateFirst_idem (p : α → Bool) (f : α → α)
    (hp : ∀ x, p (f x) = p x) (hf : ∀ x, f (f x) = f x) :
    ∀ l, updateFirst p f (updateFirst p f l) = updateFirst p f l
  | [] => rfl
  | x :: xs => by
    by_cases h : p x
    · simp [updateFirst, h, hp, hf]
    · simp [updateFirst, h, updateFirst_idem p f hp hf xs]

/-- Two one-pass updates with the same predicate fuse, provided the first
update preserves the predicate. -/
theorem updateFirst_comp (p : α → Bool) (f g : α → α)
    (hp : ∀ x, p (g x) = p x) :
    ∀ l, updateFirst p f (updateFirst p g l) =
      updateFirst p (fun x => f (g x)) l
  | [] => rfl
  | x :: xs => by
    by_cases h : p x
    · simp [updateFirst, h, hp]
    · simp [updateFirst, h, updateFirst_comp p f g hp xs]

/-- An untouched-by-`updateFirst` list: no element matches. -/
theorem updateFirst_of_not_any (p : α → Bool) (f : α → α) :
    ∀ l, l.any p = false → updateFirst p f l = l
  | [], _ => rfl
  | x :: xs, h => by
    simp only [List.any_cons, Bool.or_eq_false_iff] at h
    simp [updateFirst, h.1, updateFirst_of_not_any p f xs h.2]

/-! ### Claim theorems -/

/-- C2: `clearMessages()` empties the four telemetry sequences
(messages, thinkingLogs, llmCalls, toolUsages) and leaves the focused
Project entity — in particular its status, total_cost and employees —
as well as the summary list and focus id unchanged. -/
theorem clearMessages_empties_telemetry_only (s : StoreState) :
    (clearMessages s).messages = [] ∧
    (clearMessages s).thinkingLogs = [] ∧
    (clearMessages s).llmCalls = [] ∧
    (clearMessages s).toolUsages = [] ∧
    (clearMessages s).currentProject = s.currentProject ∧
    (clearMessages s).currentProjectId = s.currentProjectId ∧
    (clearMessages s).projects = s.projects ∧
    (clearMessages s).loading = s.loading ∧
    ((clearMessages s).currentProject.map Project.status =
      s.currentProject.map Project.status) ∧
    ((clearMessages s).currentProject.map Project.total_cost =
      s.currentProject.map Project.total_cost) ∧
    ((clearMessages s).currentProject.map Project.employees =
      s.currentProject.map Project.employees) := by
  simp [clearMessages]

/-- C10: with no focused project (both `currentProject` and
`currentProjectId` null), the four project-field mutations are total
no-ops on the whole store. -/
theorem no_focus_mutations_are_noops (s : StoreState)
    (h1 : s.currentProject = none) (h2 : s.currentProjectId = none) :
    (∀ l, updateEmployees l s = s) ∧
    (∀ st, updateStatus st s = s) ∧
    (∀ c, updateCost c s = s) ∧
    (∀ d, updateEmployeeStatus d s = s) := by
  refine ⟨fun l => ?_, fun st => ?_, fun c => ?_, fun d => ?_⟩ <;>
    simp [updateEmployees, updateStatus, updateCost, updateEmployeeStatus,
      h1, h2]

/-- Witness for C10 at the initial (unfocused) store. -/
theorem no_focus_mutations_are_noops_witness :
    updateStatus "completed" initialStore = initialStore ∧
    updateCost 5 initialStore = initialStore ∧
    updateEmployees [emp1] initialStore = initialStore ∧
    updateEmployeeStatus
      { agent_name := "Alice", status := "idle", action := none }
      initialStore = initialStore := by
  have h := no_focus_mutations_are_noops initialStore rfl rfl
  exact ⟨h.2.1 "completed", h.2.2.1 5, h.1 [emp1], h.2.2.2 _⟩

/-- C3: an `agent_status` event whose agent name is absent from the
focused roster leaves the whole store unchanged (no insertion); when
present, only the first employee of that name has `is_idle` and
`current_action` rewritten (name and profile preserved), and nothing
else changes. -/
theorem agent_status_updates_only_existing (env : Env) (d : AgentStatusIn)
    (s : StoreState) (cp : Project) (l : List Employee)
    (hcp : s.currentProject = some cp) (hl : cp.employees = some l) :
    (l.any (fun e => e.name = d.agent_name) = false →
      handleMessage env (.agent_status d) s = (s, [])) ∧
    (l.any (fun e => e.name = d.agent_name) = true →
      handleMessage env (.agent_status d) s =
        ({ s with currentProject :=
            (some { cp with employees :=
              (some (updateFirst (fun e => e.name = d.agent_name)
                (applyAgentStatus d) l)) }) }, [])) ∧
    (∀ e, (applyAgentStatus d e).name = e.name ∧
      (applyAgentStatus d e).profile = e.profile) := by
  refine ⟨fun habs => ?_, fun hpres => ?_, fun e => ⟨rfl, rfl⟩⟩
  · simp [handleMessage, updateEmployeeStatus, hcp, hl, habs]
  · simp [handleMessage, updateEmployeeStatus, hcp, hl, hpres]

/-- Witness for C3: unknown name "Bob" is a no-op on `store1`; known name
"Alice" flips her fields in place. -/
theorem agent_status_updates_only_existing_witness :
    handleMessage env1
      (.agent_status
        { agent_name := "Bob", status := "working", action := some "coding" })
      store1 = (store1, []) ∧
    handleMessage env1
      (.agent_status
        { agent_name := "Alice", status := "working", action := some "coding" })
      store1 =
      ({ store1 with currentProject :=
          (some { proj1 with employees :=
            (some [{ emp1 with is_idle := false, current_action := "coding" }]) }) },
       []) := by
  constructor
  · exact (agent_status_updates_only_existing env1 _ store1 proj1 [emp1]
      rfl rfl).1 (by decide)
  · have h := (agent_status_updates_only_existing env1
      { agent_name := "Alice", status := "working", action := some "coding" }
      store1 proj1 [emp1] rfl rfl).2.1 (by decide)
    rw [h]
    decide

/-- C4: handling one `tool_usage` event appends exactly one ToolUsage
record and exactly one thinking-log entry, the latter of type `tool`;
no other part of the store changes and no effect fires. -/
theorem tool_usage_appends_usage_and_tool_log (env : Env) (u : ToolUsageIn)
    (s : StoreState) :
    (handleMessage env (.tool_usage u) s).2 = [] ∧
    ((handleMessage env (.tool_usage u) s).1.toolUsages.length =
      s.toolUsages.length + 1) ∧
    ((handleMessage env (.tool_usage u) s).1.thinkingLogs.length =
      s.thinkingLogs.length + 1) ∧
    (((handleMessage env (.tool_usage u) s).1.thinkingLogs.getLast?).map
      ThinkingLog.type = some "tool") ∧
    ((handleMessage env (.tool_usage u) s).1.messages = s.messages) ∧
    ((handleMessage env (.tool_usage u) s).1.llmCalls = s.llmCalls) ∧
    ((handleMessage env (.tool_usage u) s).1.projects = s.projects) ∧
    ((handleMessage env (.tool_usage u) s).1.currentProject =
      s.currentProject) ∧
    ((handleMessage env (.tool_usage u) s).1.currentProjectId =
      s.currentProjectId) := by
  simp [handleMessage, addToolUsage, addThinking]

/-- `updateCost` rewrites only the project entity and the summary list;
the call feed is untouched. -/
theorem updateCost_llmCalls (c : ℚ) (s : StoreState) :
    (updateCost c s).llmCalls = s.llmCalls := by
  obtain ⟨ps, cpid, cp, ld, ms, th, lc, tu⟩ := s
  cases cp <;> cases cpid <;> simp [updateCost]

/-- `updateCost` overwrites the focused project's `total_cost` with the
given figure, whatever it was before. -/
theorem updateCost_currentProject (c : ℚ) (s : StoreState) :
    (updateCost c s).currentProject =
      s.currentProject.map (fun cp => { cp with total_cost := c }) := by
  obtain ⟨ps, cpid, cp, ld, ms, th, lc, tu⟩ := s
  cases cp <;> cases cpid <;> simp [updateCost]

/-- `updateCost` with the same figure twice collapses to once. -/
theorem updateCost_idem (c : ℚ) (s : StoreState) :
    updateCost c (updateCost c s) = updateCost c s := by
  obtain ⟨ps, cpid, cp, ld, ms, th, lc, tu⟩ := s
  cases cp <;> cases cpid <;> simp [updateCost] <;> (try rename_i cid) <;>
    exact updateFirst_idem (fun p => decide (p.id = cid))
      (fun p => { p with total_cost := c }) (fun x => rfl) (fun x => rfl) ps

/-- C1 counterexample: handling the same `llm_call` event (carrying
total_cost 1) twice in a row on `store1` does not leave the same state
as handling it once — the second handling appends a second LLM-call
record to the feed. -/
theorem llm_call_twice_differs_from_once :
    (handleMessage env1 (.llm_call call1 (some 1))
      (handleMessage env1 (.llm_call call1 (some 1)) store1).1).1 ≠
    (handleMessage env1 (.llm_call call1 (some 1)) store1).1 := by
  intro h
  have hl := congrArg (fun st => st.llmCalls.length) h
  simp [handleMessage, addLLMCall, updateCost_llmCalls] at hl

/-- C1 (amended): `cost_update` with total_cost `c` and `llm_call`
carrying total_cost `c` both set the focused project's `total_cost` to
exactly `c` (no addition); handling the same `cost_update` twice leaves
the same state as once; for `llm_call`, the second handling leaves the
project entity (in particular `total_cost`) unchanged but appends one
more record to the call feed. -/
theorem cost_events_overwrite_cost (env : Env) (c : ℚ) (call : LLMCallIn)
    (s : StoreState) (cp : Project) (hcp : s.currentProject = some cp) :
    ((handleMessage env (.cost_update (some c)) s).1.currentProject =
      some { cp with total_cost := c }) ∧
    ((handleMessage env (.llm_call call (some c)) s).1.currentProject =
      some { cp with total_cost := c }) ∧
    ((handleMessage env (.cost_update (some c))
        (handleMessage env (.cost_update (some c)) s).1).1 =
      (handleMessage env (.cost_update (some c)) s).1) ∧
    ((handleMessage env (.llm_call call (some c))
        (handleMessage env (.llm_call call (some c)) s).1).1.currentProject =
      (handleMessage env (.llm_call call (some c)) s).1.currentProject) ∧
    ((handleMessage env (.llm_call call (some c))
        (handleMessage env (.llm_call call (some c)) s).1).1.llmCalls.length =
      (handleMessage env (.llm_call call (some c)) s).1.llmCalls.length + 1) := by
  refine ⟨?_, ?_, ?_, ?_, ?_⟩
  · simp [handleMessage, updateCost_currentProject, hcp]
  · simp [handleMessage, addLLMCall, updateCost_currentProject, hcp]
  · simpa [handleMessage] using updateCost_idem c s
  · simp [handleMessage, addLLMCall, updateCost_currentProject, hcp]
  · simp [handleMessage, addLLMCall, updateCost_llmCalls]

/-- Witness for C1 (amended) on `store1` at cost 5/4. -/
theorem cost_events_overwrite_cost_witness :
    (handleMessage env1 (.cost_update (some (5/4))) store1).1.currentProject =
      some { proj1 with total_cost := 5/4 } :=
  (cost_events_overwrite_cost env1 (5/4) call1 store1 proj1 rfl).1

/-- `updateStatus` replaces the focused entity's status and nothing else
of it. -/
theorem updateStatus_currentProject (st : String) (s : StoreState) :
    (updateStatus st s).currentProject =
      s.currentProject.map (fun cp => { cp with status := st }) := by
  obtain ⟨ps, cpid, cp, ld, ms, th, lc, tu⟩ := s
  cases cp <;> cases cpid <;> simp [updateStatus]

/-- `updateStatus` keeps the focus id. -/
theorem updateStatus_currentProjectId (st : String) (s : StoreState) :
    (updateStatus st s).currentProjectId = s.currentProjectId := by
  obtain ⟨ps, cpid, cp, ld, ms, th, lc, tu⟩ := s
  cases cp <;> cases cpid <;> simp [updateStatus]

/-- `updateStatus` keeps the message log. -/
theorem updateStatus_messages (st : String) (s : StoreState) :
    (updateStatus st s).messages = s.messages := by
  obtain ⟨ps, cpid, cp, ld, ms, th, lc, tu⟩ := s
  cases cp <;> cases cpid <;> simp [updateStatus]

/-- `updateCost` keeps the focus id. -/
theorem updateCost_currentProjectId (c : ℚ) (s : StoreState) :
    (updateCost c s).currentProjectId = s.currentProjectId := by
  obtain ⟨ps, cpid, cp, ld, ms, th, lc, tu⟩ := s
  cases cp <;> cases cpid <;> simp [updateCost]

/-- `updateCost` keeps the message log. -/
theorem updateCost_messages (c : ℚ) (s : StoreState) :
    (updateCost c s).messages = s.messages := by
  obtain ⟨ps, cpid, cp, ld, ms, th, lc, tu⟩ := s
  cases cp <;> cases cpid <;> simp [updateCost]

/-- Summary-list effect of `updateStatus` when a project is focused. -/
theorem updateStatus_projects (st : String) (cid : Nat) (s : StoreState)
    (h : s.currentProjectId = some cid) :
    (updateStatus st s).projects =
      updateFirst (fun p => p.id = cid) (fun p => { p with status := st })
        s.projects := by
  obtain ⟨ps, cpid, cp, ld, ms, th, lc, tu⟩ := s
  simp only at h
  subst h
  cases cp <;> simp [updateStatus]

/-- Summary-list effect of `updateCost` when a project is focused. -/
theorem updateCost_projects (c : ℚ) (cid : Nat) (s : StoreState)
    (h : s.currentProjectId = some cid) :
    (updateCost c s).projects =
      updateFirst (fun p => p.id = cid) (fun p => { p with total_cost := c })
        s.projects := by
  obtain ⟨ps, cpid, cp, ld, ms, th, lc, tu⟩ := s
  simp only at h
  subst h
  cases cp <;> simp [updateCost]

/-- C5: handling `project_status` with status `st` and message `m` fires
exactly one summary-list refresh, appends exactly one system Message
carrying `m`, sets the focused project's status (and the first matching
summary-list entry's status) to `st`, and copies `total_cost` and
`output_path` onto the focused project precisely when `st` is
`completed` and a cost figure accompanies the event. -/
theorem project_status_event_effects (env : Env) (st m : String)
    (tc : Option ℚ) (op : Option String) (s : StoreState) (cp : Project)
    (hcp : s.currentProject = some cp) :
    ((handleMessage env (.project_status st m tc op) s).2 =
      [.fetchProjectsReq]) ∧
    ((handleMessage env (.project_status st m tc op) s).1.messages =
      s.messages ++
        [{ type := some "system", content := m, sent_from := "System",
           timestamp := env.nowIso }]) ∧
    (∀ c, tc = some c → st = "completed" →
      (handleMessage env (.project_status st m tc op) s).1.currentProject =
        some { cp with
                status := st, total_cost := c,
                output_path := jsOrStr op "" }) ∧
    (¬ st = "completed" ∨ tc = none →
      (handleMessage env (.project_status st m tc op) s).1.currentProject =
        some { cp with status := st }) ∧
    (∀ cid, s.currentProjectId = some cid →
      (handleMessage env (.project_status st m tc op) s).1.projects =
        updateFirst (fun p => p.id = cid)
          (fun p =>
            match tc with
            | some c =>
                if st = "completed" then
                  { p with status := st, total_cost := c }
                else { p with status := st }
            | none => { p with status := st }) s.projects) := by
  refine ⟨?_, ?_, ?_, ?_, ?_⟩
  · by_cases hst : st = "completed" <;> cases tc <;> simp [handleMessage, hst]
  · by_cases hst : st = "completed" <;> cases tc <;>
      simp [handleMessage, hst, addMessage, updateStatus_messages,
        updateCost_messages, updateCost_currentProject,
        updateStatus_currentProject, hcp, jsOrStr]
  · intro c htc hst
    subst htc
    simp [handleMessage, hst, addMessage, updateCost_currentProject,
      updateStatus_currentProject, hcp]
  · intro h
    rcases h with hst | htc
    · simp [handleMessage, hst, addMessage, updateStatus_currentProject, hcp]
    · subst htc
      by_cases hst : st = "completed" <;>
        simp [handleMessage, hst, addMessage, updateStatus_currentProject, hcp]
  · intro cid hcid
    by_cases hst : st = "completed"
    · subst hst
      cases tc with
      | none =>
          simpa [handleMessage, addMessage] using
            updateStatus_projects "completed" cid s hcid
      | some c =>
          simp [handleMessage, addMessage, updateCost_currentProject,
            updateStatus_currentProject, hcp, updateCost_projects,
            updateStatus_currentProjectId, hcid,
            updateStatus_projects "completed" cid s hcid,
            updateFirst_comp (fun p : Project => decide (p.id = cid))
              (fun p : Project => { p with total_cost := c })
              (fun p : Project => { p with status := "completed" })
              (fun x => rfl)]
    · cases tc <;>
        simp [handleMessage, hst, addMessage,
          updateStatus_projects st cid s hcid]

/-- Witness for C5: a `completed` event with cost 2 and an output path on
`store1`. -/
theorem project_status_event_effects_witness :
    ((handleMessage env1
        (.project_status "completed" "done" (some 2) (some "/out"))
        store1).1.currentProject =
      some { proj1 with
              status := "completed", total_cost := 2,
              output_path := "/out" }) ∧
    ((handleMessage env1
        (.project_status "completed" "done" (some 2) (some "/out"))
        store1).2 = [.fetchProjectsReq]) := by
  have h := project_status_event_effects env1 "completed" "done" (some 2)
    (some "/out") store1 proj1 rfl
  refine ⟨?_, h.1⟩
  have h3 := h.2.2.1 2 rfl rfl
  rw [h3]
  decide

/-- C6 counterexample: a failing background list refresh is not silent —
`fetchProjects` raises one error notification (though it does not
rethrow). -/
theorem fetchProjects_failure_raises_notification :
    ((fetchProjects (.error "server detail text") initialStore).2.1 =
      [.error "加载项目列表失败"]) ∧
    ¬ (fetchProjects (.error "server detail text") initialStore).2.1 = [] := by
  exact ⟨rfl, by simp [fetchProjects]⟩

/-- C6 (amended): every failing store action raises exactly one error
notification whose text is a local constant (independent of the server's
`detail` string) and rethrows — except `fetchProjects`, which raises its
one error notification but swallows the error (no rethrow). -/
theorem rest_failures_notify_and_rethrow (err : String) (id : Nat)
    (fetchRes : Except String Project)
    (listRes : Except String (List Project)) (s : StoreState) :
    ((fetchProject id (.error err) s).2 =
      ([.error "加载项目详情失败"], true)) ∧
    ((createProject (.error err) listRes s).2 =
      ([.error "创建项目失败"], true)) ∧
    ((updateProject id (.error err) fetchRes s).2 =
      ([.error "更新项目失败"], true)) ∧
    ((deleteProject id (.error err) listRes s).2 =
      ([.error "删除项目失败"], true)) ∧
    ((startProject (.error err) s).2 = ([.error "启动项目失败"], true)) ∧
    ((stopProject (.error err) s).2 = ([.error "停止项目失败"], true)) ∧
    ((fetchProjects (.error err) s).2 =
      ([.error "加载项目列表失败"], false)) :=
  ⟨rfl, rfl, rfl, rfl, rfl, rfl, rfl⟩

/-- `padStart(4, '0')` pads to width 4 and never shrinks. -/
theorem length_padStart4 (s : String) :
    (padStart4 s).length = max 4 s.length := by
  unfold padStart4
  split
  · omega
  · rw [String.length_append]
    have hmk : (String.mk (List.replicate (4 - s.length) '0')).length =
        4 - s.length := by
      show (List.replicate (4 - s.length) '0').length = 4 - s.length
      simp
    omega

/-- The padded call id is never the empty string, so the guard in
`fetchLLMCall` always passes for it. -/
theorem padStart4_ne_empty (s : String) : ¬ padStart4 s = "" := by
  intro h
  have hl := congrArg String.length h
  rw [length_padStart4] at hl
  simp at hl

/-- C7: `prev()`/`next()` are no-ops — no request, cursor untouched —
when the corresponding flag is false or the index is at its bound
(1 for prev, `totalCount` for next); otherwise they set the loading flag
and request exactly ordinal `index∓1`, zero-padded to 4 digits, under
the project-scoped path. -/
theorem cursor_navigation_guards (pid : String) (c : CursorState)
    (hpid : ¬ pid = "") (hlo : 1 ≤ c.currentIndex)
    (hhi : c.currentIndex ≤ c.totalCount) :
    ((c.hasPrev = false ∨ c.currentIndex = 1) →
      goToPrev (some pid) c = (c, none)) ∧
    (c.hasPrev = true → ¬ c.currentIndex = 1 →
      goToPrev (some pid) c =
        ({ c with loading := true },
         some ("/api/projects/" ++ pid ++ "/llm-calls/" ++
           padStart4 (toString (c.currentIndex - 1))))) ∧
    ((c.hasNext = false ∨ c.currentIndex = c.totalCount) →
      goToNext (some pid) c = (c, none)) ∧
    (c.hasNext = true → ¬ c.currentIndex = c.totalCount →
      goToNext (some pid) c =
        ({ c with loading := true },
         some ("/api/projects/" ++ pid ++ "/llm-calls/" ++
           padStart4 (toString (c.currentIndex + 1))))) ∧
    (∀ n : Nat, (padStart4 (toString n)).length = max 4 (toString n).length) := by
  refine ⟨?_, ?_, ?_, ?_, fun n => length_padStart4 _⟩
  · rintro (h | h) <;> simp [goToPrev, h]
  · intro hprev hne
    have hgt : 1 < c.currentIndex := by omega
    simp [goToPrev, hprev, hgt, startFetch, fetchLLMCallReq, hpid,
      padStart4_ne_empty]
  · rintro (h | h) <;> simp [goToNext, h]
  · intro hnext hne
    have hlt : c.currentIndex < c.totalCount := by omega
    simp [goToNext, hnext, hlt, startFetch, fetchLLMCallReq, hpid,
      padStart4_ne_empty]

/-- Witness for C7: from index 2 of 3, prev requests ordinal `0001` and
next requests ordinal `0003`; at index 3 of 3, next is a no-op. -/
theorem cursor_navigation_guards_witness :
    (goToPrev (some "p1")
        { currentIndex := 2, totalCount := 3, hasPrev := true,
          hasNext := true, loading := false } =
      ({ currentIndex := 2, totalCount := 3, hasPrev := true,
         hasNext := true, loading := true },
       some "/api/projects/p1/llm-calls/0001")) ∧
    (goToNext (some "p1")
        { currentIndex := 3, totalCount := 3, hasPrev := true,
          hasNext := true, loading := false } =
      ({ currentIndex := 3, totalCount := 3, hasPrev := true,
         hasNext := true, loading := false }, none)) := by
  constructor
  · have h := (cursor_navigation_guards "p1"
      { currentIndex := 2, totalCount := 3, hasPrev := true,
        hasNext := true, loading := false }
      (by decide) (by decide) (by decide)).2.1 rfl (by decide)
    rw [h]
    decide
  · exact (cursor_navigation_guards "p1"
      { currentIndex := 3, totalCount := 3, hasPrev := true,
        hasNext := true, loading := false }
      (by decide) (by decide) (by decide)).2.2.1 (Or.inr rfl)

/-- The notification store's initial state. -/
def notifInit : NotifState := { notifications := [], idCounter := 0 }

/-- C8: a non-positive duration schedules no automatic removal at all;
`error` with the default duration schedules removal after exactly
6000 ms, and the default for the other severities is 4000 ms. -/
theorem notification_autoremoval_policy (now : Nat) (msg type_ : String)
    (d : Int) (s : NotifState) :
    (d ≤ 0 → (notifAdd now msg type_ d s).2.1 = []) ∧
    ((notifError now msg none s).2.1 =
      [{ targetId := s.idCounter + 1, delayMs := 6000 }]) ∧
    ((notifSuccess now msg none s).2.1 =
      [{ targetId := s.idCounter + 1, delayMs := 4000 }]) ∧
    ((notifInfo now msg none s).2.1 =
      [{ targetId := s.idCounter + 1, delayMs := 4000 }]) ∧
    ((notifWarning now msg none s).2.1 =
      [{ targetId := s.idCounter + 1, delayMs := 4000 }]) := by
  refine ⟨fun hd => ?_, ?_, ?_, ?_, ?_⟩
  · simp [notifAdd, show ¬ (0:Int) < d from by omega]
  all_goals
    simp [notifError, notifSuccess, notifInfo, notifWarning, notifAddOpt,
      notifAdd]

/-- Witness for C8: duration 0 never schedules removal; a default
`error` schedules removal at 6000 ms. -/
theorem notification_autoremoval_policy_witness :
    (notifAdd 0 "m" "info" 0 notifInit).2.1 = [] ∧
    (notifError 0 "boom" none notifInit).2.1 =
      [{ targetId := 1, delayMs := 6000 }] := by
  have h := notification_autoremoval_policy 0 "m" "info" 0 notifInit
  have h2 := notification_autoremoval_policy 0 "boom" "e" 0 notifInit
  exact ⟨h.1 (by decide), h2.2.1⟩

/-- The connection-manager invariant: the open sockets are exactly the
held one, and a held handle is always below the fresh-handle counter. -/
def wsInv : WSWorld × WSClient → Prop
  | (w, c) =>
    (w.openConns = (match c.ws with | some h => [h] | none => [])) ∧
    (∀ h, c.ws = some h → h < w.nextHandle)

/-- The start state satisfies the invariant. -/
theorem wsInv_init : wsInv wsInit := by
  refine ⟨rfl, fun h hh => ?_⟩
  cases hh

/-- Every connect/disconnect step preserves the invariant. -/
theorem wsInv_step (op : WSOp) (st : WSWorld × WSClient) (h : wsInv st) :
    wsInv (wsStep op st) := by
  obtain ⟨w, c⟩ := st
  obtain ⟨h1, h2⟩ := h
  cases op with
  | disconnectOp =>
      cases hws : c.ws with
      | none =>
          refine ⟨?_, fun hh hhh => ?_⟩
          · simp [wsStep, wsDisconnect, hws, h1, hws]
          · simp [wsStep, wsDisconnect, hws] at hhh
      | some hnd =>
          refine ⟨?_, fun hh hhh => ?_⟩
          · rw [hws] at h1
            simp [wsStep, wsDisconnect, hws, h1]
          · simp [wsStep, wsDisconnect, hws] at hhh
  | connectOp pid =>
      cases hws : c.ws with
      | none =>
          refine ⟨?_, fun hh hhh => ?_⟩
          · rw [hws] at h1
            simp [wsStep, wsConnect, wsDisconnect, hws, h1]
          · simp [wsStep, wsConnect, wsDisconnect, hws] at hhh ⊢
            omega
      | some hnd =>
          refine ⟨?_, fun hh hhh => ?_⟩
          · rw [hws] at h1
            simp [wsStep, wsConnect, wsDisconnect, hws, h1]
          · simp [wsStep, wsConnect, wsDisconnect, hws] at hhh ⊢
            omega

/-- The invariant holds after any operation sequence. -/
theorem wsRun_inv (ops : List WSOp) : wsInv (wsRun ops) := by
  show wsInv (ops.foldl (fun st op => wsStep op st) wsInit)
  generalize hst : wsInit = st
  have hinv : wsInv st := hst ▸ wsInv_init
  clear hst
  induction ops generalizing st with
  | nil => exact hinv
  | cons op ops ih => exact ih _ (wsInv_step op st hinv)

/-- Under the invariant, at most one socket is open. -/
theorem openConns_len_le_one (st : WSWorld × WSClient) (h : wsInv st) :
    st.1.openConns.length ≤ 1 := by
  obtain ⟨w, c⟩ := st
  obtain ⟨cws, cic⟩ := c
  obtain ⟨h1, _⟩ := h
  simp only at h1
  rw [h1]
  cases cws <;> simp

/-- Under the invariant, connecting over a held connection closes the
old socket: exactly one (fresh) socket remains open. -/
theorem wsConnect_closes_old (st : WSWorld × WSClient) (h : wsInv st)
    (hnd : Nat) (hws : st.2.ws = some hnd) :
    (wsConnect st).1.openConns.length = 1 ∧
    hnd ∉ (wsConnect st).1.openConns := by
  obtain ⟨w, c⟩ := st
  obtain ⟨h1, h2⟩ := h
  have hlt := h2 hnd hws
  simp only at hws hlt
  rw [hws] at h1
  simp only at h1
  constructor
  · simp [wsConnect, wsDisconnect, hws, h1]
  · simp [wsConnect, wsDisconnect, hws, h1]
    omega

/-- C9: after any sequence of connect/disconnect operations at most one
transport connection is open; `disconnect` is idempotent and is the
identity on an already-disconnected state; and `connect` on a state
holding a connection closes it — afterwards exactly one (new) socket is
open and the old handle is no longer among the open ones. -/
theorem single_connection_invariant :
    (∀ ops : List WSOp, (wsRun ops).1.openConns.length ≤ 1) ∧
    (∀ st : WSWorld × WSClient,
      wsDisconnect (wsDisconnect st) = wsDisconnect st) ∧
    (∀ st : WSWorld × WSClient,
      st.2.ws = none → st.2.isConnected = false → wsDisconnect st = st) ∧
    (∀ ops : List WSOp, ∀ hnd : Nat, (wsRun ops).2.ws = some hnd →
      (wsConnect (wsRun ops)).1.openConns.length = 1 ∧
      hnd ∉ (wsConnect (wsRun ops)).1.openConns) := by
  refine ⟨fun ops => ?_, fun st => ?_, fun st h1 h2 => ?_, fun ops hnd hws => ?_⟩
  · exact openConns_len_le_one (wsRun ops) (wsRun_inv ops)
  · obtain ⟨w, c⟩ := st
    obtain ⟨cws, cic⟩ := c
    cases cws <;> simp [wsDisconnect]
  · obtain ⟨w, c⟩ := st
    obtain ⟨cws, cic⟩ := c
    simp only at h1 h2
    subst h1
    subst h2
    simp [wsDisconnect]
  · exact wsConnect_closes_old (wsRun ops) (wsRun_inv ops) hnd hws

/-- Witness for C9: one connect from the start state leaves exactly one
open socket; disconnecting twice equals disconnecting once; disconnect
on the start state is the identity. -/
theorem single_connection_invariant_witness :
    (wsRun [WSOp.connectOp "p1"]).1.openConns.length ≤ 1 ∧
    wsDisconnect (wsDisconnect wsInit) = wsDisconnect wsInit ∧
    wsDisconnect wsInit = wsInit := by
  have h := single_connection_invariant
  exact ⟨h.1 [WSOp.connectOp "p1"], h.2.1 wsInit, h.2.2.1 wsInit rfl rfl⟩

end MetaGPTFrontend
